import Mathlib

/-!
Verification of the sample-evaluation orchestrator in
`evaluate_diffusion.py` (the `__main__` driver loop).

The driver iterates over generated samples and, per sample:
decodes atom types and updates stability counters and the all-pairs
distance list (lines 66-75, outside any `try`); attempts reconstruction
(lines 78-86, catching only `MolReconsError`); checks completeness via
`'.' in smiles` (lines 88-90); runs the chemical/docking stage under a
bare `except:` (lines 93-118); and on success accumulates bond and pair
distances and atom types (lines 121-125).  After the loop it divides the
counters by `num_samples` (lines 129-140) and logs a final summary
(lines 160-161).

The pipeline functions called by the driver (`transforms`, `analyze`,
`reconstruct`, `scoring_func`, the docking tasks, `eval_bond_length`)
live outside the driver file; their per-sample outcomes are modelled as
oracle data carried by each sample (see `Sample`).

Two source facts that matter below:
* `example_idx` is never defined anywhere in the file, so the two
  verbose-mode `logger.warning` calls (lines 84 and 117), whose messages
  interpolate `f'{example_idx}_{sample_idx}'`, raise `NameError` when
  reached; an exception raised inside an `except` handler propagates and
  aborts the run.
* `results` is initialized to `[]` (line 57) and never appended to.
-/

/-- Docking mode, from the `--docking_mode` CLI choices
`['qvina', 'vina_score', 'vina_dock', 'none']`. -/
inductive DockingMode where
  | qvina
  | vina_score
  | vina_dock
  | none
deriving Repr, DecidableEq

/-- An individual docking-collaborator invocation made by the
chemical/docking stage: `vina_task.run_sync()` for qvina, or
`vina_task.run(mode=...)` for the vina modes. -/
inductive DockRun where
  | qvina_sync
  | score_only
  | minimize
  | dock
deriving Repr, DecidableEq

/-- Modelled from the spec: the outcomes of the external/“collaborator”
calls the driver makes for one sample.  The called code
(`transforms.get_atomic_number_from_index`, `analyze.check_stability`,
`reconstruct.reconstruct_from_generated`, `Chem.MolToSmiles`,
`scoring_func.get_chem`, `QVinaDockingTask`/`VinaDockingTask`,
`eval_bond_length.*`) is not part of the driver file, so each sample
carries the data those calls would produce:

* `decodeOk`: the decode call on line 67 returns (spec §4.1: decode is a
  pure lookup; an out-of-range index is an error that fails loudly).
* `atomTypes`: the decoded atom types (`pred_atom_type`); `Counter`
  addition is modelled as list concatenation (multiset sum).
* `molStable`, `nAtomStable`, `nAtom`: `check_stability`'s verdict
  `(molecule_stable, n_stable_atoms, n_atoms)` (spec §3, §4.3).
* `pairDist`: the records returned by `pair_distance_from_pos_v`,
  abstract tokens.
* `reconOk`: reconstruction + SMILES conversion succeed (a failure is
  `MolReconsError`, spec §4.4/§7); `smiles`: the canonical SMILES.
* `chemOk`: `scoring_func.get_chem(mol)` returns without raising.
* `qvinaOk`, `scoreOnlyOk`, `minimizeOk`, `dockOk`: the individual
  docking runs return without raising (spec §6: docking may raise).
* `bondDist`: the records returned by `bond_distance_from_mol`. -/
structure Sample where
  decodeOk : Bool
  atomTypes : List Nat
  molStable : Bool
  nAtomStable : Nat
  nAtom : Nat
  pairDist : List Nat
  reconOk : Bool
  smiles : List Char
  chemOk : Bool
  qvinaOk : Bool
  scoreOnlyOk : Bool
  minimizeOk : Bool
  dockOk : Bool
  bondDist : List Nat
deriving Repr, DecidableEq

/-- The CLI options the loop's control flow depends on:
`--verbose` and `--docking_mode`. -/
structure Config where
  verbose : Bool
  docking_mode : DockingMode
deriving Repr, DecidableEq

/-- The driver's mutable accumulators (lines 55-60): stability counters,
stage counters, the never-touched `results` list, the global and
success-side distance lists and atom-type counters. -/
structure RunState where
  all_mol_stable : Nat
  all_atom_stable : Nat
  all_n_atom : Nat
  n_recon_success : Nat
  n_eval_success : Nat
  n_complete : Nat
  results : List Unit
  all_pair_dist : List Nat
  all_bond_dist : List Nat
  all_atom_types : List Nat
  success_pair_dist : List Nat
  success_atom_types : List Nat
deriving Repr, DecidableEq

/-- The initial accumulator state (lines 55-60): all counters zero, all
lists empty. -/
def initState : RunState :=
  { all_mol_stable := 0
    all_atom_stable := 0
    all_n_atom := 0
    n_recon_success := 0
    n_eval_success := 0
    n_complete := 0
    results := []
    all_pair_dist := []
    all_bond_dist := []
    all_atom_types := []
    success_pair_dist := []
    success_atom_types := [] }

/-- How a run can die: an uncaught exception from the decode/stability
block (outside any `try`), the `NameError` raised by the verbose-mode
warnings that interpolate the undefined `example_idx`, or the
`ZeroDivisionError` from the fraction computation. -/
inductive AbortKind where
  | decodeError
  | nameError
  | zeroDivError
deriving Repr, DecidableEq

/-- Result of processing a (portion of the) sample loop: either control
reaches the next iteration point normally, or an uncaught exception
aborts the run, freezing the accumulator state reached so far. -/
inductive StepResult where
  | ok (st : RunState)
  | aborted (k : AbortKind) (st : RunState)
deriving Repr, DecidableEq

/-- The accumulator state carried by a `StepResult`, whether or not the
run aborted. -/
def stepState : StepResult → RunState
  | .ok st => st
  | .aborted _ st => st

/-- Outcome of the chemical/docking stage (lines 93-113): whether the
`try` body completed, which docking runs were attempted (in order), and
the value bound to `vina_results` (modelled by the set of result keys;
`Option.none` models Python `None`). -/
structure EvalOut where
  success : Bool
  attempted : List DockRun
  vinaResults : Option (List DockRun)
deriving Repr, DecidableEq

/-- The body of the chemical/docking `try` block (lines 93-113):
`get_chem` first (any mode), then the mode-dependent docking calls;
the first raising call ends the stage.  Under mode `none`,
`vina_results = None` and no docking call is made (line 111-112). -/
def evalStage (mode : DockingMode) (s : Sample) : EvalOut :=
  if s.chemOk = false then ⟨false, [], Option.none⟩
  else
    match mode with
    | .qvina =>
        if s.qvinaOk then ⟨true, [.qvina_sync], some [.qvina_sync]⟩
        else ⟨false, [.qvina_sync], Option.none⟩
    | .vina_score =>
        if s.scoreOnlyOk = false then ⟨false, [.score_only], Option.none⟩
        else if s.minimizeOk = false then
          ⟨false, [.score_only, .minimize], Option.none⟩
        else ⟨true, [.score_only, .minimize], some [.score_only, .minimize]⟩
    | .vina_dock =>
        if s.scoreOnlyOk = false then ⟨false, [.score_only], Option.none⟩
        else if s.minimizeOk = false then
          ⟨false, [.score_only, .minimize], Option.none⟩
        else if s.dockOk = false then
          ⟨false, [.score_only, .minimize, .dock], Option.none⟩
        else ⟨true, [.score_only, .minimize, .dock],
              some [.score_only, .minimize, .dock]⟩
    | .none => ⟨true, [], Option.none⟩

/-- The stability-branch updates (lines 66-75): `all_atom_types`,
the three stability counters, and `all_pair_dist`. -/
def stabilityUpdate (s : Sample) (st : RunState) : RunState :=
  { st with
    all_atom_types := st.all_atom_types ++ s.atomTypes
    all_mol_stable := st.all_mol_stable + (if s.molStable then 1 else 0)
    all_atom_stable := st.all_atom_stable + s.nAtomStable
    all_n_atom := st.all_n_atom + s.nAtom
    all_pair_dist := st.all_pair_dist ++ s.pairDist }

/-- `n_recon_success += 1` (line 86). -/
def reconInc (st : RunState) : RunState :=
  { st with n_recon_success := st.n_recon_success + 1 }

/-- `n_complete += 1` (line 90). -/
def completeInc (st : RunState) : RunState :=
  { st with n_complete := st.n_complete + 1 }

/-- `n_eval_success += 1` (line 114) followed by the post-`try` success
accumulation (lines 121-125). -/
def successUpdate (s : Sample) (st : RunState) : RunState :=
  { st with
    n_eval_success := st.n_eval_success + 1
    all_bond_dist := st.all_bond_dist ++ s.bondDist
    success_pair_dist := st.success_pair_dist ++ s.pairDist
    success_atom_types := st.success_atom_types ++ s.atomTypes }

/-- One iteration of the sample loop (lines 63-125).

* Line 67's decode call is outside any `try`; if it raises, the
  exception escapes and the run aborts before any accumulator update.
* Lines 68-75 then run the stability branch unconditionally.
* Reconstruction failure (`MolReconsError`) is caught; in verbose mode
  the handler's warning (line 84) interpolates the undefined
  `example_idx`, raising `NameError` and aborting the run; otherwise
  `continue`.
* `'.' in smiles` (line 88) means incomplete: `continue` without
  touching later counters.
* The chemical/docking stage runs under a bare `except:`; on failure,
  verbose mode again hits the undefined `example_idx` (line 117) and
  aborts; otherwise `continue`.  On success, `n_eval_success` and the
  success accumulators are updated. -/
def processSample (cfg : Config) (s : Sample) (st : RunState) : StepResult :=
  if s.decodeOk = false then .aborted .decodeError st
  else
    let st1 := stabilityUpdate s st
    if s.reconOk = false then
      if cfg.verbose then .aborted .nameError st1 else .ok st1
    else
      let st2 := reconInc st1
      if s.smiles.contains '.' then .ok st2
      else
        let st3 := completeInc st2
        if (evalStage cfg.docking_mode s).success then .ok (successUpdate s st3)
        else
          if cfg.verbose then .aborted .nameError st3 else .ok st3

/-- The sample loop (line 63): fold `processSample` over the sample
list, stopping if an iteration aborts the run. -/
def runLoop (cfg : Config) : List Sample → RunState → StepResult
  | [], st => .ok st
  | s :: rest, st =>
      match processSample cfg s st with
      | .ok st' => runLoop cfg rest st'
      | .aborted k st' => .aborted k st'

/-- The final metrics the driver reports: the `validity_dict` fractions
(lines 129-140) and the numbers in the final summary line 160-161
(`n_recon_success`, `n_complete`, `len(results)`). -/
structure Report where
  mol_stable : ℚ
  atm_stable : ℚ
  recon_success : ℚ
  eval_success : ℚ
  complete : ℚ
  numRecon : Nat
  numComplete : Nat
  numEvaluated : Nat
deriving Repr, DecidableEq

/-- The post-loop fraction computation (lines 129-140) and final
summary.  Python's `/` on the integer counters raises
`ZeroDivisionError` when `num_samples = 0` (line 129) or, failing that,
when `all_n_atom = 0` (line 130); otherwise it is exact rational
division. -/
def computeReport (numSamples : Nat) (st : RunState) : Except AbortKind Report :=
  if numSamples = 0 then .error .zeroDivError
  else if st.all_n_atom = 0 then .error .zeroDivError
  else .ok
    { mol_stable := (st.all_mol_stable : ℚ) / (numSamples : ℚ)
      atm_stable := (st.all_atom_stable : ℚ) / (st.all_n_atom : ℚ)
      recon_success := (st.n_recon_success : ℚ) / (numSamples : ℚ)
      eval_success := (st.n_eval_success : ℚ) / (numSamples : ℚ)
      complete := (st.n_complete : ℚ) / (numSamples : ℚ)
      numRecon := st.n_recon_success
      numComplete := st.n_complete
      numEvaluated := st.results.length }

/-- The whole run after loading: the sample loop from the fresh
accumulator state, then the report; `num_samples` is the loaded set's
length (lines 51-54). An uncaught exception anywhere surfaces as
`.error`. -/
def runEval (cfg : Config) (samples : List Sample) : Except AbortKind Report :=
  match runLoop cfg samples initState with
  | .ok st => computeReport samples.length st
  | .aborted k _ => .error k

/-- A sample passes the reconstruction, completeness and
chemical/docking gates: these are exactly the samples whose records
reach the success-side accumulators. -/
def sampleSuccess (mode : DockingMode) (s : Sample) : Bool :=
  s.reconOk && !(s.smiles.contains '.') && (evalStage mode s).success

/-! ### Concrete fixtures used by witnesses and counterexamples -/

/-- A sample on which every external call succeeds: two carbon atoms,
both stable, reconstructing to the fragment-free SMILES `CC`. -/
def sampleFull : Sample :=
  { decodeOk := true
    atomTypes := [6, 6]
    molStable := true
    nAtomStable := 2
    nAtom := 2
    pairDist := [10]
    reconOk := true
    smiles := ['C', 'C']
    chemOk := true
    qvinaOk := true
    scoreOnlyOk := true
    minimizeOk := true
    dockOk := true
    bondDist := [7] }

/-- Like `sampleFull`, but reconstruction raises `MolReconsError`. -/
def sampleReconFail : Sample := { sampleFull with reconOk := false }

/-- Like `sampleFull`, but `scoring_func.get_chem` raises. -/
def sampleChemFail : Sample := { sampleFull with chemOk := false }

/-- Like `sampleFull`, but the SMILES contains the fragment
separator `.`. -/
def sampleIncomplete : Sample := { sampleFull with smiles := ['C', '.', 'C'] }

/-- Non-verbose run with docking disabled (the CLI defaults). -/
def cfgQuiet : Config := { verbose := false, docking_mode := .none }

/-- Verbose run with docking disabled. -/
def cfgVerbose : Config := { verbose := true, docking_mode := .none }

/-! ### Per-step characterization lemmas -/

/-- A non-aborted loop iteration appends the sample's pair distances to
`all_pair_dist`, and appends its records to the three success-side
accumulators exactly when the sample passes all three gates. -/
theorem processSample_ok_accum (cfg : Config) (s : Sample) (st st1 : RunState)
    (h : processSample cfg s st = .ok st1) :
    st1.all_pair_dist = st.all_pair_dist ++ s.pairDist ∧
    st1.all_bond_dist = st.all_bond_dist ++
      (if sampleSuccess cfg.docking_mode s then s.bondDist else []) ∧
    st1.success_pair_dist = st.success_pair_dist ++
      (if sampleSuccess cfg.docking_mode s then s.pairDist else []) ∧
    st1.success_atom_types = st.success_atom_types ++
      (if sampleSuccess cfg.docking_mode s then s.atomTypes else []) := by
  unfold processSample at h
  unfold sampleSuccess
  repeat' split at h
  all_goals (try (injection h with h))
  all_goals (try (subst h))
  all_goals simp_all [stabilityUpdate, reconInc, completeInc, successUpdate]

/-- A non-aborted loop iteration preserves `n_eval_success ≤ n_complete`,
`n_complete ≤ n_recon_success`, adds at most 1 to `all_mol_stable` and
`n_recon_success`, and (when the sample's stability verdict counts at
most `nAtom` stable atoms) grows `all_atom_stable` by at most the growth
of `all_n_atom`. -/
theorem processSample_ok_bounds (cfg : Config) (s : Sample) (st st1 : RunState)
    (h : processSample cfg s st = .ok st1) (hs : s.nAtomStable ≤ s.nAtom) :
    st1.all_mol_stable ≤ st.all_mol_stable + 1 ∧
    st1.n_recon_success ≤ st.n_recon_success + 1 ∧
    st1.all_atom_stable + st.all_n_atom ≤ st.all_atom_stable + st1.all_n_atom ∧
    (st.n_complete ≤ st.n_recon_success → st1.n_complete ≤ st1.n_recon_success) := by
  unfold processSample at h
  repeat' split at h
  all_goals (try (injection h with h))
  all_goals (try (subst h))
  all_goals simp_all [stabilityUpdate, reconInc, completeInc, successUpdate]
  all_goals (first | omega | (split <;> omega))

/-- Any loop iteration, aborting or not, preserves
`n_eval_success ≤ n_complete`. -/
theorem processSample_eval_le_complete (cfg : Config) (s : Sample) (st : RunState)
    (h : st.n_eval_success ≤ st.n_complete) :
    (stepState (processSample cfg s st)).n_eval_success ≤
      (stepState (processSample cfg s st)).n_complete := by
  unfold processSample
  repeat' split
  all_goals simp_all [stabilityUpdate, reconInc, completeInc, successUpdate, stepState]
  all_goals omega

/-- No loop iteration ever touches the `results` list. -/
theorem processSample_results (cfg : Config) (s : Sample) (st : RunState) :
    (stepState (processSample cfg s st)).results = st.results := by
  unfold processSample
  repeat' split
  all_goals simp [stabilityUpdate, reconInc, completeInc, successUpdate, stepState]

/-- When the run is quiet and the sample decodes, the iteration cannot
abort: both warning sites and the decode escape are unreachable. -/
theorem processSample_no_abort (cfg : Config) (s : Sample) (st : RunState)
    (hv : cfg.verbose = false) (hd : s.decodeOk = true) :
    processSample cfg s st = .ok (stepState (processSample cfg s st)) := by
  unfold processSample
  repeat' split
  all_goals simp_all [stepState]

/-! ### Loop-level lemmas -/

/-- The `results` list is untouched by the whole loop. -/
theorem runLoop_results (cfg : Config) (l : List Sample) (st : RunState) :
    (stepState (runLoop cfg l st)).results = st.results := by
  induction l generalizing st with
  | nil => rfl
  | cons s rest ih =>
      have hps := processSample_results cfg s st
      cases hp : processSample cfg s st with
      | ok st1 =>
          simp only [runLoop, hp]
          rw [hp] at hps
          simp only [stepState] at hps
          rw [ih st1, hps]
      | aborted k st1 =>
          simp only [runLoop, hp]
          rw [hp] at hps
          simpa [stepState] using hps

/-- The loop preserves `n_eval_success ≤ n_complete`, aborted or not. -/
theorem runLoop_eval_le_complete (cfg : Config) (l : List Sample) (st : RunState)
    (h : st.n_eval_success ≤ st.n_complete) :
    (stepState (runLoop cfg l st)).n_eval_success ≤
      (stepState (runLoop cfg l st)).n_complete := by
  induction l generalizing st with
  | nil => simpa [runLoop, stepState]
  | cons s rest ih =>
      have hps := processSample_eval_le_complete cfg s st h
      cases hp : processSample cfg s st with
      | ok st1 =>
          simp only [runLoop, hp]
          rw [hp] at hps
          exact ih st1 (by simpa [stepState] using hps)
      | aborted k st1 =>
          simp only [runLoop, hp]
          rw [hp] at hps
          simpa [stepState] using hps

set_option maxRecDepth 8000 in
/-- A completed loop appends every sample's pair distances to
`all_pair_dist`, and appends to the success-side accumulators exactly
the records of the samples passing all three gates. -/
theorem runLoop_ok_accum (cfg : Config) (l : List Sample) (st st' : RunState)
    (h : runLoop cfg l st = .ok st') :
    st'.all_pair_dist = st.all_pair_dist ++ (l.map Sample.pairDist).flatten ∧
    st'.all_bond_dist = st.all_bond_dist ++
      ((l.filter (sampleSuccess cfg.docking_mode)).map Sample.bondDist).flatten ∧
    st'.success_pair_dist = st.success_pair_dist ++
      ((l.filter (sampleSuccess cfg.docking_mode)).map Sample.pairDist).flatten ∧
    st'.success_atom_types = st.success_atom_types ++
      ((l.filter (sampleSuccess cfg.docking_mode)).map Sample.atomTypes).flatten := by
  induction l generalizing st with
  | nil =>
      simp only [runLoop] at h
      injection h with h
      subst h
      simp
  | cons s rest ih =>
      cases hp : processSample cfg s st with
      | aborted k st1 => simp [runLoop, hp] at h
      | ok st1 =>
          simp only [runLoop, hp] at h
          obtain ⟨a1, a2, a3, a4⟩ := processSample_ok_accum cfg s st st1 hp
          obtain ⟨b1, b2, b3, b4⟩ := ih st1 h
          by_cases hss : sampleSuccess cfg.docking_mode s = true
          · have hfc : (s :: rest).filter (sampleSuccess cfg.docking_mode) =
                s :: rest.filter (sampleSuccess cfg.docking_mode) := by
              simp [List.filter_cons, hss]
            rw [if_pos hss] at a2 a3 a4
            refine ⟨?_, ?_, ?_, ?_⟩
            · rw [b1, a1, List.map_cons, List.flatten_cons, List.append_assoc]
            · rw [b2, a2, hfc, List.map_cons, List.flatten_cons, List.append_assoc]
            · rw [b3, a3, hfc, List.map_cons, List.flatten_cons, List.append_assoc]
            · rw [b4, a4, hfc, List.map_cons, List.flatten_cons, List.append_assoc]
          · have hfc : (s :: rest).filter (sampleSuccess cfg.docking_mode) =
                rest.filter (sampleSuccess cfg.docking_mode) := by
              simp [List.filter_cons, hss]
            rw [if_neg hss] at a2 a3 a4
            refine ⟨?_, ?_, ?_, ?_⟩
            · rw [b1, a1, List.map_cons, List.flatten_cons, List.append_assoc]
            · rw [b2, a2, hfc]; simp
            · rw [b3, a3, hfc]; simp
            · rw [b4, a4, hfc]; simp

/-- Counter bounds along a completed loop: `all_mol_stable` and
`n_recon_success` grow by at most the number of samples,
`all_atom_stable` grows by at most the growth of `all_n_atom` (given
each sample's verdict counts at most `nAtom` stable atoms), and
`n_complete ≤ n_recon_success` is preserved. -/
theorem runLoop_ok_bounds (cfg : Config) (l : List Sample) (st st' : RunState)
    (h : runLoop cfg l st = .ok st')
    (hs : ∀ s ∈ l, s.nAtomStable ≤ s.nAtom) :
    st'.all_mol_stable ≤ st.all_mol_stable + l.length ∧
    st'.n_recon_success ≤ st.n_recon_success + l.length ∧
    st'.all_atom_stable + st.all_n_atom ≤ st.all_atom_stable + st'.all_n_atom ∧
    (st.n_complete ≤ st.n_recon_success → st'.n_complete ≤ st'.n_recon_success) := by
  induction l generalizing st with
  | nil =>
      simp only [runLoop] at h
      injection h with h
      subst h
      simp
  | cons s rest ih =>
      cases hp : processSample cfg s st with
      | aborted k st1 => simp [runLoop, hp] at h
      | ok st1 =>
          simp only [runLoop, hp] at h
          obtain ⟨a1, a2, a3, a4⟩ :=
            processSample_ok_bounds cfg s st st1 hp (hs s (by simp))
          obtain ⟨b1, b2, b3, b4⟩ := ih st1 h (fun x hx => hs x (by simp [hx]))
          simp only [List.length_cons]
          exact ⟨by omega, by omega, by omega, fun hcc => b4 (a4 hcc)⟩

/-- In quiet mode, when every sample decodes, the loop never aborts. -/
theorem runLoop_no_abort (cfg : Config) (l : List Sample) (st : RunState)
    (hv : cfg.verbose = false) (hd : ∀ s ∈ l, s.decodeOk = true) :
    runLoop cfg l st = .ok (stepState (runLoop cfg l st)) := by
  induction l generalizing st with
  | nil => rfl
  | cons s rest ih =>
      obtain ⟨st1, hp⟩ : ∃ st1, processSample cfg s st = .ok st1 :=
        ⟨_, processSample_no_abort cfg s st hv (hd s (by simp))⟩
      simp only [runLoop]
      rw [hp]
      exact ih st1 (fun x hx => hd x (by simp [hx]))

/-! ### Small arithmetic helpers for the fraction claims -/

/-- A quotient of nonnegative casts is nonnegative. -/
theorem frac_nonneg (a b : Nat) : (0:ℚ) ≤ (a:ℚ) / (b:ℚ) :=
  div_nonneg (Nat.cast_nonneg a) (Nat.cast_nonneg b)

/-- `a/b ≤ 1` when `a ≤ b` and `b ≠ 0`, over the rationals. -/
theorem frac_le_one {a b : Nat} (hb : b ≠ 0) (hab : a ≤ b) :
    (a:ℚ) / (b:ℚ) ≤ 1 := by
  rw [div_le_one (by exact_mod_cast Nat.pos_of_ne_zero hb)]
  exact_mod_cast hab

/-! ### Claim theorems -/

/-- C1, counterexample: with `--verbose` enabled, a single sample whose
reconstruction fails makes the whole run abort — the handler's warning
interpolates the undefined `example_idx` and the resulting `NameError`
escapes the per-sample loop.  This refutes the claim that no stage
failure ever aborts the run in both verbose and non-verbose mode. -/
theorem c1_counterexample :
    runEval cfgVerbose [sampleReconFail] = Except.error AbortKind.nameError := by
  rfl

/-- C1, amended: with verbose mode off and every sample's decode call
succeeding (decode and the stability check run outside any `try`, so
their failures do escape), no reconstruction, completeness or
chemical/docking failure aborts the run: the sample loop always runs to
completion. -/
theorem c1_amended (cfg : Config) (samples : List Sample)
    (hv : cfg.verbose = false) (hd : ∀ s ∈ samples, s.decodeOk = true) :
    runLoop cfg samples initState =
      .ok (stepState (runLoop cfg samples initState)) :=
  runLoop_no_abort cfg samples initState hv hd

/-- C1 witness: a quiet two-sample run, one reconstruction failure
included, completes without aborting. -/
theorem c1_witness :
    runLoop cfgQuiet [sampleReconFail, sampleFull] initState =
      .ok (stepState (runLoop cfgQuiet [sampleReconFail, sampleFull] initState)) :=
  c1_amended cfgQuiet [sampleReconFail, sampleFull] rfl (by decide)

/-- C2: on a completed run, `all_pair_dist` holds every sample's
pairwise distances, while `all_bond_dist`, `success_pair_dist` and
`success_atom_types` hold exactly the records of the samples that pass
reconstruction, the completeness check, and the chemical/docking stage —
so the "complete molecules" bond-length profile (built from
`all_bond_dist`) is built from exactly the evaluation-successful
complete molecules. -/
theorem c2_accumulator_routing (cfg : Config) (samples : List Sample)
    (st : RunState) (h : runLoop cfg samples initState = .ok st) :
    st.all_pair_dist = (samples.map Sample.pairDist).flatten ∧
    st.all_bond_dist =
      ((samples.filter (sampleSuccess cfg.docking_mode)).map Sample.bondDist).flatten ∧
    st.success_pair_dist =
      ((samples.filter (sampleSuccess cfg.docking_mode)).map Sample.pairDist).flatten ∧
    st.success_atom_types =
      ((samples.filter (sampleSuccess cfg.docking_mode)).map Sample.atomTypes).flatten := by
  have hacc := runLoop_ok_accum cfg samples initState st h
  simpa [initState] using hacc

/-- C2 witness: in a concrete run with one fully successful, one
incomplete and one chem-failing sample, all three samples' pair records
reach `all_pair_dist` but only the successful sample's reach
`success_pair_dist`. -/
theorem c2_witness :
    (stepState (runLoop cfgQuiet [sampleFull, sampleIncomplete, sampleChemFail]
        initState)).all_pair_dist = [10, 10, 10] ∧
    (stepState (runLoop cfgQuiet [sampleFull, sampleIncomplete, sampleChemFail]
        initState)).success_pair_dist = [10] := by
  have h := c2_accumulator_routing cfgQuiet
    [sampleFull, sampleIncomplete, sampleChemFail]
    (stepState (runLoop cfgQuiet [sampleFull, sampleIncomplete, sampleChemFail]
      initState)) rfl
  exact ⟨by rw [h.1]; decide, by rw [h.2.2.1]; decide⟩

/-- C3: on any run that reaches the report, each reported fraction lies
in `[0, 1]` and the final counters satisfy
`n_complete ≤ n_recon_success ≤ num_samples` — given the spec's
guarantee on `check_stability`'s verdict, that a sample's stable-atom
count never exceeds its atom count. -/
theorem c3_fraction_bounds (cfg : Config) (samples : List Sample) (rep : Report)
    (h : runEval cfg samples = .ok rep)
    (hs : ∀ s ∈ samples, s.nAtomStable ≤ s.nAtom) :
    (0 ≤ rep.mol_stable ∧ rep.mol_stable ≤ 1) ∧
    (0 ≤ rep.atm_stable ∧ rep.atm_stable ≤ 1) ∧
    (0 ≤ rep.recon_success ∧ rep.recon_success ≤ 1) ∧
    (0 ≤ rep.eval_success ∧ rep.eval_success ≤ 1) ∧
    (0 ≤ rep.complete ∧ rep.complete ≤ 1) ∧
    rep.numComplete ≤ rep.numRecon ∧ rep.numRecon ≤ samples.length := by
  unfold runEval at h
  cases hl : runLoop cfg samples initState with
  | aborted k st1 => rw [hl] at h; cases h
  | ok st1 =>
      rw [hl] at h
      have h2 : computeReport samples.length st1 = Except.ok rep := h
      unfold computeReport at h2
      split at h2
      · cases h2
      · rename_i hn
        split at h2
        · cases h2
        · rename_i ha
          injection h2 with h2
          subst h2
          dsimp only
          obtain ⟨m1, m2, m3, m4⟩ :=
            runLoop_ok_bounds cfg samples initState st1 hl hs
          simp only [initState, Nat.zero_add] at m1 m2 m3 m4
          have hcr : st1.n_complete ≤ st1.n_recon_success := m4 (Nat.le_refl 0)
          have hev := runLoop_eval_le_complete cfg samples initState
            (by simp [initState])
          rw [hl] at hev
          simp only [stepState] at hev
          refine ⟨⟨frac_nonneg _ _, frac_le_one hn (by omega)⟩,
                  ⟨frac_nonneg _ _, frac_le_one ha (by omega)⟩,
                  ⟨frac_nonneg _ _, frac_le_one hn (by omega)⟩,
                  ⟨frac_nonneg _ _, frac_le_one hn (by omega)⟩,
                  ⟨frac_nonneg _ _, frac_le_one hn (by omega)⟩,
                  by omega, by omega⟩

/-- The accumulator state a quiet run reaches after the single fully
successful sample `sampleFull`. -/
def stFull : RunState :=
  { all_mol_stable := 1
    all_atom_stable := 2
    all_n_atom := 2
    n_recon_success := 1
    n_eval_success := 1
    n_complete := 1
    results := []
    all_pair_dist := [10]
    all_bond_dist := [7]
    all_atom_types := [6, 6]
    success_pair_dist := [10]
    success_atom_types := [6, 6] }

/-- The report of that run: every fraction is 1, and the final summary
line reports 1 reconstructed, 1 complete, 0 evaluated molecules. -/
def repFull : Report :=
  { mol_stable := 1
    atm_stable := 1
    recon_success := 1
    eval_success := 1
    complete := 1
    numRecon := 1
    numComplete := 1
    numEvaluated := 0 }

/-- The quiet one-sample run computes `stFull`. -/
theorem runLoop_sampleFull :
    runLoop cfgQuiet [sampleFull] initState = .ok stFull := by decide

/-- The quiet one-sample run reports `repFull`. -/
theorem runEval_sampleFull :
    runEval cfgQuiet [sampleFull] = Except.ok repFull := by
  unfold runEval
  rw [runLoop_sampleFull]
  unfold computeReport
  norm_num [stFull, repFull]

/-- C3 witness: a concrete one-sample run reaches the report, satisfies
the verdict hypothesis, and its fractions are bounded. -/
theorem c3_witness :
    (0 ≤ repFull.complete ∧ repFull.complete ≤ 1) ∧
    repFull.numRecon ≤ [sampleFull].length := by
  have h := c3_fraction_bounds cfgQuiet [sampleFull] repFull
    runEval_sampleFull (by decide)
  exact ⟨h.2.2.2.2.1, h.2.2.2.2.2.2⟩

/-- C4, counterexample: with the empty input set the sample-loop phase
completes normally (it does not abort at or before sample processing),
and the run then fails with the `ZeroDivisionError` raised by the
fraction computation — not with an immediate load-time report: there is
no emptiness check. -/
theorem c4_counterexample :
    runLoop cfgQuiet [] initState = StepResult.ok initState ∧
    runEval cfgQuiet [] = Except.error AbortKind.zeroDivError :=
  ⟨rfl, rfl⟩

/-- C4, amended: an empty input set is still fatal, but only via the
unhandled `ZeroDivisionError` in the post-loop fraction computation
(`all_mol_stable / num_samples` with `num_samples = 0`); the empty
sample loop itself completes normally, for every configuration. -/
theorem c4_amended (cfg : Config) :
    runLoop cfg [] initState = StepResult.ok initState ∧
    runEval cfg [] = Except.error AbortKind.zeroDivError :=
  ⟨rfl, rfl⟩

/-- C5: for a decoded sample whose reconstruction succeeds,
`n_complete` is incremented exactly when the canonical SMILES contains
no `'.'`; when it does contain `'.'`, the iteration stops right after
the reconstruction counter — the state is exactly
`reconInc (stabilityUpdate s st)` and control continues with the next
sample. -/
theorem c5_completeness_gate (cfg : Config) (s : Sample) (st : RunState)
    (hd : s.decodeOk = true) (hr : s.reconOk = true) :
    ((stepState (processSample cfg s st)).n_complete = st.n_complete + 1 ↔
      s.smiles.contains '.' = false) ∧
    (s.smiles.contains '.' = true →
      processSample cfg s st = .ok (reconInc (stabilityUpdate s st))) := by
  unfold processSample
  repeat' split
  all_goals simp_all [stabilityUpdate, reconInc, completeInc, successUpdate, stepState]

/-- C5 witness: the fragment-containing sample leaves `n_complete`
untouched and the iteration ends right after `n_recon_success += 1`. -/
theorem c5_witness :
    processSample cfgQuiet sampleIncomplete initState =
      .ok (reconInc (stabilityUpdate sampleIncomplete initState)) :=
  (c5_completeness_gate cfgQuiet sampleIncomplete initState rfl rfl).2 (by decide)

/-- C6: for every sample the loop processes (its decode call returns),
the stability counters, the global atom-type counter and the all-pairs
list are each updated exactly once, whatever happens in the
reconstruction, completeness or evaluation stages. -/
theorem c6_stability_independent (cfg : Config) (s : Sample) (st : RunState)
    (hd : s.decodeOk = true) :
    (stepState (processSample cfg s st)).all_mol_stable =
      st.all_mol_stable + (if s.molStable then 1 else 0) ∧
    (stepState (processSample cfg s st)).all_atom_stable =
      st.all_atom_stable + s.nAtomStable ∧
    (stepState (processSample cfg s st)).all_n_atom =
      st.all_n_atom + s.nAtom ∧
    (stepState (processSample cfg s st)).all_atom_types =
      st.all_atom_types ++ s.atomTypes ∧
    (stepState (processSample cfg s st)).all_pair_dist =
      st.all_pair_dist ++ s.pairDist := by
  unfold processSample
  repeat' split
  all_goals simp_all [stabilityUpdate, reconInc, completeInc, successUpdate, stepState]

/-- C6 witness: a reconstruction-failing sample still lands its pair
distances and atom counts in the global accumulators, exactly once. -/
theorem c6_witness :
    (stepState (processSample cfgQuiet sampleReconFail initState)).all_pair_dist =
      initState.all_pair_dist ++ sampleReconFail.pairDist ∧
    (stepState (processSample cfgQuiet sampleReconFail initState)).all_n_atom =
      initState.all_n_atom + sampleReconFail.nAtom := by
  have h := c6_stability_independent cfgQuiet sampleReconFail initState rfl
  exact ⟨h.2.2.2.2, h.2.2.1⟩

/-- C7: whenever the run reaches its report, the `validity_dict`
entries are exactly the final counters divided by `num_samples` (and,
for `atm_stable`, by `all_n_atom`), computed once from the loop's
final state. -/
theorem c7_report_mapping (cfg : Config) (samples : List Sample)
    (st : RunState) (rep : Report)
    (hl : runLoop cfg samples initState = .ok st)
    (h : runEval cfg samples = .ok rep) :
    rep.mol_stable = (st.all_mol_stable : ℚ) / (samples.length : ℚ) ∧
    rep.atm_stable = (st.all_atom_stable : ℚ) / (st.all_n_atom : ℚ) ∧
    rep.recon_success = (st.n_recon_success : ℚ) / (samples.length : ℚ) ∧
    rep.eval_success = (st.n_eval_success : ℚ) / (samples.length : ℚ) ∧
    rep.complete = (st.n_complete : ℚ) / (samples.length : ℚ) := by
  unfold runEval at h
  rw [hl] at h
  have h2 : computeReport samples.length st = Except.ok rep := h
  unfold computeReport at h2
  split at h2
  · cases h2
  · split at h2
    · cases h2
    · injection h2 with h2
      subst h2
      exact ⟨rfl, rfl, rfl, rfl, rfl⟩

/-- C7 witness: the concrete one-sample run's reported fractions equal
its final counters divided by the sample count. -/
theorem c7_witness :
    repFull.mol_stable = (stFull.all_mol_stable : ℚ) / ([sampleFull].length : ℚ) ∧
    repFull.eval_success = (stFull.n_eval_success : ℚ) / ([sampleFull].length : ℚ) := by
  have h := c7_report_mapping cfgQuiet [sampleFull] stFull repFull
    runLoop_sampleFull runEval_sampleFull
  exact ⟨h.1, h.2.2.2.1⟩

/-- C8, counterexample: under `docking_mode = 'none'` the
chemical/docking stage is not guaranteed to succeed — `get_chem` runs in
every mode and may raise.  On a complete sample whose `get_chem` raises,
the stage fails and `n_eval_success` stays 0 while `n_complete` is 1. -/
theorem c8_counterexample :
    (evalStage DockingMode.none sampleChemFail).success = false ∧
    (stepState (runLoop cfgQuiet [sampleChemFail] initState)).n_complete = 1 ∧
    (stepState (runLoop cfgQuiet [sampleChemFail] initState)).n_eval_success = 0 := by
  decide

/-- C8, amended: for a complete sample, a failure anywhere in the
chemical/docking stage (including `get_chem`, which runs in every mode)
leaves `n_eval_success` unincremented and skips only that sample's
success accumulation; in non-verbose mode the loop continues with the
next sample, while in verbose mode the handler's warning raises
`NameError` (undefined `example_idx`) and aborts the run.  Under mode
`none` no docking call is made, `vina_results` is `None`, and the stage
succeeds exactly when `get_chem` does; `vina_score` runs `score_only`
and `minimize`; `vina_dock` additionally runs `dock`. -/
theorem c8_eval_stage (cfg : Config) (s : Sample) (st : RunState)
    (hd : s.decodeOk = true) (hr : s.reconOk = true)
    (hc : s.smiles.contains '.' = false) :
    (cfg.verbose = false → (evalStage cfg.docking_mode s).success = false →
      processSample cfg s st = .ok (completeInc (reconInc (stabilityUpdate s st)))) ∧
    (cfg.verbose = true → (evalStage cfg.docking_mode s).success = false →
      processSample cfg s st =
        .aborted .nameError (completeInc (reconInc (stabilityUpdate s st)))) ∧
    ((evalStage DockingMode.none s).success = s.chemOk ∧
      (evalStage DockingMode.none s).attempted = [] ∧
      (evalStage DockingMode.none s).vinaResults = Option.none) ∧
    (s.chemOk = true → s.scoreOnlyOk = true →
      (evalStage DockingMode.vina_score s).attempted = [.score_only, .minimize]) ∧
    (s.chemOk = true → s.scoreOnlyOk = true → s.minimizeOk = true →
      (evalStage DockingMode.vina_dock s).attempted =
        [.score_only, .minimize, .dock]) := by
  have hc2 : ¬('.' ∈ s.smiles) := by simpa using hc
  refine ⟨?_, ?_, ?_, ?_, ?_⟩
  · intro hv hfail
    unfold processSample
    simp [hd, hr, hc2, hv, hfail]
  · intro hv hfail
    unfold processSample
    simp [hd, hr, hc2, hv, hfail]
  · cases hch : s.chemOk <;> simp [evalStage, hch]
  · intro h1 h2
    cases hmin : s.minimizeOk <;> simp [evalStage, h1, h2, hmin]
  · intro h1 h2 h3
    cases hdk : s.dockOk <;> simp [evalStage, h1, h2, h3, hdk]

/-- C8 witness: the chem-failing complete sample, in quiet mode, leaves
the loop state at exactly the pre-evaluation counters and continues. -/
theorem c8_witness :
    processSample cfgQuiet sampleChemFail initState =
      .ok (completeInc (reconInc (stabilityUpdate sampleChemFail initState))) :=
  (c8_eval_stage cfgQuiet sampleChemFail initState rfl rfl (by decide)).1
    rfl (by decide)

/-- C9: at every point of the loop — i.e. after any list of samples,
and hence after every prefix of a longer run — the state satisfies
`n_eval_success ≤ n_complete`: the evaluation stage is only reached
after `n_complete` is incremented. -/
theorem c9_eval_le_complete (cfg : Config) (samples : List Sample) :
    (stepState (runLoop cfg samples initState)).n_eval_success ≤
      (stepState (runLoop cfg samples initState)).n_complete :=
  runLoop_eval_le_complete cfg samples initState (by simp [initState])

/-- C10: the final summary's "evaluated mols" number, `len(results)`,
is 0 on every run that reaches it: `results` is initialized empty and
never appended to. -/
theorem c10_reported_evaluated_zero (cfg : Config) (samples : List Sample)
    (rep : Report) (h : runEval cfg samples = .ok rep) :
    rep.numEvaluated = 0 := by
  unfold runEval at h
  cases hl : runLoop cfg samples initState with
  | aborted k st1 => rw [hl] at h; cases h
  | ok st1 =>
      rw [hl] at h
      have h2 : computeReport samples.length st1 = Except.ok rep := h
      unfold computeReport at h2
      split at h2
      · cases h2
      · split at h2
        · cases h2
        · injection h2 with h2
          subst h2
          dsimp only
          have hres := runLoop_results cfg samples initState
          rw [hl] at hres
          simp only [stepState] at hres
          rw [hres]
          rfl

/-- C10 witness: the concrete one-sample run — whose `n_eval_success`
is 1 — still reports 0 evaluated molecules. -/
theorem c10_witness : repFull.numEvaluated = 0 :=
  c10_reported_evaluated_zero cfgQuiet [sampleFull] repFull runEval_sampleFull
